import Mathlib

/-!
# Verification of the Pexels image-search proxy (`main.py`)

Shallow embedding of the single-file Flask application `main.py`:

* `Json` / `json_loads` model Python's `json.loads`, which is what
  `requests.Response.json()` calls on the body text (`response.json()` raises
  `requests.exceptions.JSONDecodeError` on failure; with the current `requests`
  library, versions 2.27 and later, that exception subclasses both
  `ValueError` and `requests.exceptions.RequestException`).
* `python_int` models Python's `int(str)` conversion, which is what
  `request.args.get('per_page', 15, type=int)` applies to the raw parameter
  (Werkzeug returns the default when the conversion raises).
* `module_init` models the module-level startup code (lines 15-21): reading
  `PEXELS_API_KEY` from the environment and the fail-fast `ValueError`.
* `search_pexels_images` models the `/api/search` handler (lines 35-91).
  The upstream exchange `requests.get(...)` is an oracle parameter
  (`UpstreamOutcome`): either a completed HTTP response (status, body text)
  or a transport failure carrying the exception's string form.  The handler
  returns its HTTP result together with the list of outbound requests it
  issued, so that absence/shape of the upstream call is provable.
-/

/-- A JSON value as produced by Python's `json.loads`.  Numbers keep their
source literal (Python distinguishes int/float; no claim compares numbers
semantically). -/
inductive Json where
  | null
  | bool (b : Bool)
  | num (lit : String)
  | str (s : String)
  | arr (items : List Json)
  | obj (members : List (String × Json))
deriving Repr

/-- JSON whitespace (as in Python's `json` module). -/
def isJsonWs (c : Char) : Bool :=
  c = ' ' || c = '\t' || c = '\n' || c = '\r'

/-- Drop leading JSON whitespace. -/
def skipWs : List Char → List Char
  | c :: cs => if isJsonWs c then skipWs cs else c :: cs
  | [] => []

/-- Value of a hexadecimal digit. -/
def hexVal (c : Char) : Option Nat :=
  if c.isDigit then some (c.toNat - 48)
  else if 'a' ≤ c ∧ c ≤ 'f' then some (c.toNat - 87)
  else if 'A' ≤ c ∧ c ≤ 'F' then some (c.toNat - 55)
  else none

/-- Body of a JSON string literal, after the opening quote: collect characters
until the closing quote, handling the escape sequences of the JSON grammar,
and rejecting raw control characters (strict mode, as in Python). -/
def parseStrBody : List Char → String → Except String (String × List Char)
  | [], _ => .error "Unterminated string"
  | '"' :: cs, acc => .ok (acc, cs)
  | '\\' :: '"' :: cs, acc => parseStrBody cs (acc.push '"')
  | '\\' :: '\\' :: cs, acc => parseStrBody cs (acc.push '\\')
  | '\\' :: '/' :: cs, acc => parseStrBody cs (acc.push '/')
  | '\\' :: 'b' :: cs, acc => parseStrBody cs (acc.push (Char.ofNat 8))
  | '\\' :: 'f' :: cs, acc => parseStrBody cs (acc.push (Char.ofNat 12))
  | '\\' :: 'n' :: cs, acc => parseStrBody cs (acc.push '\n')
  | '\\' :: 'r' :: cs, acc => parseStrBody cs (acc.push '\r')
  | '\\' :: 't' :: cs, acc => parseStrBody cs (acc.push '\t')
  | '\\' :: 'u' :: a :: b :: c :: d :: cs, acc =>
    match hexVal a, hexVal b, hexVal c, hexVal d with
    | some x, some y, some z, some w =>
      parseStrBody cs (acc.push (Char.ofNat (((x * 16 + y) * 16 + z) * 16 + w)))
    | _, _, _, _ => .error "Invalid \\uXXXX escape"
  | '\\' :: _, _ => .error "Invalid \\escape"
  | c :: cs, acc =>
    if c.toNat < 32 then .error "Invalid control character"
    else parseStrBody cs (acc.push c)

/-- Longest prefix of decimal digits. -/
def takeDigits : List Char → List Char × List Char
  | c :: cs =>
    if c.isDigit then
      match takeDigits cs with
      | (d, r) => (c :: d, r)
    else ([], c :: cs)
  | [] => ([], [])

/-- Optional fraction part `.digits` of a JSON number (consumed only when
well formed, as in the `json` module's number regex). -/
def parseFracPart : List Char → List Char × List Char
  | '.' :: rest =>
    match takeDigits rest with
    | ([], _) => ([], '.' :: rest)
    | (d, r) => ('.' :: d, r)
  | cs => ([], cs)

/-- Optional exponent part of a JSON number. -/
def parseExpPart : List Char → List Char × List Char
  | e :: rest =>
    if e = 'e' ∨ e = 'E' then
      match rest with
      | '+' :: r =>
        match takeDigits r with
        | ([], _) => ([], e :: rest)
        | (d, r2) => (e :: '+' :: d, r2)
      | '-' :: r =>
        match takeDigits r with
        | ([], _) => ([], e :: rest)
        | (d, r2) => (e :: '-' :: d, r2)
      | r =>
        match takeDigits r with
        | ([], _) => ([], e :: rest)
        | (d, r2) => (e :: d, r2)
    else ([], e :: rest)
  | [] => ([], [])

/-- Assemble a number literal from its sign, integer part and remainder. -/
def finishNumber (neg : Bool) (intPart : List Char) (rest : List Char) :
    Except String (Json × List Char) :=
  match parseFracPart rest with
  | (frac, r1) =>
    match parseExpPart r1 with
    | (ex, r2) =>
      .ok (Json.num (String.mk ((if neg then ['-'] else []) ++ intPart ++ frac ++ ex)), r2)

/-- A JSON number, following the `json` module's grammar: optional minus,
`0` or a nonzero-led digit run, optional fraction, optional exponent; the
module also accepts `Infinity` after a minus sign. -/
def parseNumber (cs : List Char) : Except String (Json × List Char) :=
  match cs with
  | '-' :: 'I' :: 'n' :: 'f' :: 'i' :: 'n' :: 'i' :: 't' :: 'y' :: rest =>
    .ok (Json.num "-Infinity", rest)
  | '-' :: rest =>
    (match rest with
     | '0' :: r => finishNumber true ['0'] r
     | c :: r =>
       if c.isDigit then
         match takeDigits r with
         | (d, r2) => finishNumber true (c :: d) r2
       else .error "Expecting value"
     | [] => .error "Expecting value")
  | '0' :: r => finishNumber false ['0'] r
  | c :: r =>
    if c.isDigit then
      match takeDigits r with
      | (d, r2) => finishNumber false (c :: d) r2
    else .error "Expecting value"
  | [] => .error "Expecting value"

mutual

/-- One JSON value (after optional leading whitespace); fuel bounds the
recursion depth and is provisioned so that it never runs out on an input of
the given length. -/
def parseValue : Nat → List Char → Except String (Json × List Char)
  | 0, _ => .error "Nesting limit exceeded"
  | fuel + 1, cs =>
    match skipWs cs with
    | 'n' :: 'u' :: 'l' :: 'l' :: rest => .ok (Json.null, rest)
    | 't' :: 'r' :: 'u' :: 'e' :: rest => .ok (Json.bool true, rest)
    | 'f' :: 'a' :: 'l' :: 's' :: 'e' :: rest => .ok (Json.bool false, rest)
    | 'N' :: 'a' :: 'N' :: rest => .ok (Json.num "NaN", rest)
    | 'I' :: 'n' :: 'f' :: 'i' :: 'n' :: 'i' :: 't' :: 'y' :: rest =>
      .ok (Json.num "Infinity", rest)
    | '"' :: rest =>
      (match parseStrBody rest "" with
       | .ok (s, rest2) => .ok (Json.str s, rest2)
       | .error e => .error e)
    | '[' :: rest =>
      (match skipWs rest with
       | ']' :: rest2 => .ok (Json.arr [], rest2)
       | rest2 => parseArrayItems fuel rest2 [])
    | '{' :: rest =>
      (match skipWs rest with
       | '}' :: rest2 => .ok (Json.obj [], rest2)
       | rest2 => parseObjMembers fuel rest2 [])
    | rest => parseNumber rest

/-- Items of a JSON array, accumulated in reverse. -/
def parseArrayItems : Nat → List Char → List Json → Except String (Json × List Char)
  | 0, _, _ => .error "Nesting limit exceeded"
  | fuel + 1, cs, acc =>
    match parseValue fuel cs with
    | .error e => .error e
    | .ok (j, rest) =>
      match skipWs rest with
      | ',' :: rest2 => parseArrayItems fuel rest2 (j :: acc)
      | ']' :: rest2 => .ok (Json.arr (j :: acc).reverse, rest2)
      | _ => .error "Expecting comma delimiter"

/-- Members of a JSON object, accumulated in reverse. -/
def parseObjMembers : Nat → List Char → List (String × Json) → Except String (Json × List Char)
  | 0, _, _ => .error "Nesting limit exceeded"
  | fuel + 1, cs, acc =>
    match skipWs cs with
    | '"' :: rest =>
      (match parseStrBody rest "" with
       | .error e => .error e
       | .ok (k, rest2) =>
         match skipWs rest2 with
         | ':' :: rest3 =>
           (match parseValue fuel rest3 with
            | .error e => .error e
            | .ok (v, rest4) =>
              match skipWs rest4 with
              | ',' :: rest5 => parseObjMembers fuel rest5 ((k, v) :: acc)
              | '}' :: rest5 => .ok (Json.obj ((k, v) :: acc).reverse, rest5)
              | _ => .error "Expecting comma delimiter")
         | _ => .error "Expecting colon delimiter")
    | _ => .error "Expecting property name"

end

/-- Python's `json.loads` on a text body: parse one value, then require only
trailing whitespace. -/
def json_loads (s : String) : Except String Json :=
  match parseValue (2 * s.length + 2) s.toList with
  | .ok (j, rest) =>
    if skipWs rest = [] then .ok j else .error "Extra data"
  | .error e => .error e

/-! ## Python `int(str)` and Werkzeug's typed argument lookup -/

/-- Python whitespace stripped by `int(str)` (ASCII subset). -/
def isPyWs (c : Char) : Bool :=
  c = ' ' || c = '\t' || c = '\n' || c = '\r' || c = Char.ofNat 11 || c = Char.ofNat 12

/-- Strip characters satisfying `p` from both ends. -/
def stripBoth (p : Char → Bool) (cs : List Char) : List Char :=
  ((cs.dropWhile p).reverse.dropWhile p).reverse

/-- Decimal digit run as accepted by Python's `int`, continuing an initial
digit: further digits, with single underscores allowed between digits. -/
def pyDigitsAux : Nat → List Char → Option Nat
  | acc, [] => some acc
  | _, ['_'] => none
  | acc, '_' :: c :: cs =>
    if c.isDigit then pyDigitsAux (acc * 10 + (c.toNat - 48)) cs else none
  | acc, c :: cs =>
    if c.isDigit then pyDigitsAux (acc * 10 + (c.toNat - 48)) cs else none

/-- Nonempty digit run as accepted by Python's `int` (underscores only
between digits). -/
def pyDigits : List Char → Option Nat
  | c :: cs => if c.isDigit then pyDigitsAux (c.toNat - 48) cs else none
  | [] => none

/-- Python's `int(s)` on a string: strip whitespace, optional sign, decimal
digits (with `_` separators); `none` models a raised `ValueError`. -/
def python_int (s : String) : Option Int :=
  match stripBoth isPyWs s.toList with
  | '+' :: rest => (pyDigits rest).map Int.ofNat
  | '-' :: rest => (pyDigits rest).map (fun n => -(n : Int))
  | rest => (pyDigits rest).map Int.ofNat

/-- `request.args` lookup: first value bound to the key, as in Werkzeug's
`MultiDict.get`. -/
def args_get (args : List (String × String)) (key : String) : Option String :=
  (args.find? (fun p => p.1 == key)).map Prod.snd

/-- `request.args.get(key, default, type=int)`: the default when the key is
absent or when `int()` raises on its value. -/
def args_get_int (args : List (String × String)) (key : String) (default : Int) : Int :=
  match args_get args key with
  | none => default
  | some s =>
    match python_int s with
    | some n => n
    | none => default

/-! ## Module-level startup (`main.py` lines 11-21) -/

/-- `os.getenv`: first binding of the name in the environment. -/
def os_getenv (env : List (String × String)) (name : String) : Option String :=
  (env.find? (fun p => p.1 == name)).map Prod.snd

/-- The upstream search endpoint (line 11). -/
def PEXELS_API_URL : String := "https://api.pexels.com/v1/search"

/-- Module import: read `PEXELS_API_KEY` and fail fast when it is falsy
(`None` or the empty string), mirroring `if not PEXELS_API_KEY: raise
ValueError(...)`.  On `.ok` the module (and hence the Flask app, created
below this check in the source) comes up holding the key; listening
(`app.run`) can only happen after an `.ok` import. -/
def module_init (env : List (String × String)) : Except String String :=
  match os_getenv env "PEXELS_API_KEY" with
  | none =>
    .error "A PEXELS_API_KEY environment variable is required to run this application."
  | some k =>
    if k = "" then
      .error "A PEXELS_API_KEY environment variable is required to run this application."
    else .ok k

/-! ## The `/api/search` handler (`main.py` lines 35-91) -/

/-- The data of one outbound `requests.get` call (line 70). -/
structure OutboundRequest where
  url : String
  authorization : String
  query : String
  per_page : Int
  timeout : Nat
deriving Repr, DecidableEq

/-- Outcome of the single upstream exchange, supplied as an oracle: either a
completed HTTP response (any status, any body text) or a
`requests.exceptions.RequestException` other than `HTTPError` raised by
`requests.get` itself (DNS failure, connection refused, timeout, TLS
failure), carrying its string form. -/
inductive UpstreamOutcome where
  | response (status : Nat) (body : String)
  | transportError (desc : String)
deriving Repr

/-- The exceptions that can arise inside the handler's `try` block. -/
inductive PyExc where
  /-- `requests.exceptions.HTTPError` from `raise_for_status` (carries the
  response's status and body via the in-scope `response`). -/
  | httpError (status : Nat) (body : String)
  /-- `requests.exceptions.JSONDecodeError` from `response.json()`; in
  current `requests` it subclasses both `ValueError` and
  `RequestException`. -/
  | jsonDecodeError (msg : String)
  /-- Any other `requests.exceptions.RequestException` (transport failure). -/
  | requestException (desc : String)
deriving Repr

/-- Membership in `requests.exceptions.RequestException`: all three
exception kinds above are subclasses. -/
def isRequestException : PyExc → Bool
  | .httpError _ _ => true
  | .jsonDecodeError _ => true
  | .requestException _ => true

/-- `str(exc)` as interpolated into the 503 message (only reached for
non-`HTTPError` exceptions, which are caught first). -/
def pyExcMessage : PyExc → String
  | .httpError status _ => toString status ++ " Error"
  | .jsonDecodeError msg => msg
  | .requestException desc => desc

/-- `response.raise_for_status()`: raises `HTTPError` exactly for status
codes 400-599. -/
def raise_for_status (status : Nat) (body : String) : Except PyExc Unit :=
  if 400 ≤ status ∧ status < 600 then .error (.httpError status body)
  else .ok ()

/-- `response.json()`: decode the body text, raising `JSONDecodeError` on
failure. -/
def response_json (body : String) : Except PyExc Json :=
  match json_loads body with
  | .ok j => .ok j
  | .error msg => .error (.jsonDecodeError msg)

/-- What the view function hands back to Flask: either a bare Python value,
from `return response.json()` on line 76, or an explicit
`(jsonify(...), status)` pair, from lines 54, 86 and 91. -/
inductive ViewReturn where
  | pyValue (v : Json)
  | jsonResponse (status : Nat) (body : Json)
deriving Repr

/-- The response Flask sends to the client after converting the view's
return value. -/
inductive HttpResponse where
  /-- a JSON response with the given status. -/
  | json (status : Nat) (body : Json)
  /-- a plain-text (text/html) response with the given status. -/
  | text (status : Nat) (body : String)
  /-- Flask's own 500 HTML error page, produced when converting the view's
  return value raises `TypeError`. -/
  | serverError
deriving Repr

/-- Whether a decoded value is a Python `dict` or `list` — the only bare
view-return values that Flask converts to a JSON response. -/
def is_dict_or_list : Json → Bool
  | .obj _ => true
  | .arr _ => true
  | _ => false

/-- Flask's conversion of the view's return value (current Flask, 2.2 and
later): a `(jsonify(...), status)` pair passes through with that status; a
bare `dict` or `list` is serialized as a 200 JSON response; a bare `str`
becomes the raw body of a 200 text/html response; any other bare value
(`None`, `bool`, `int`, `float`) raises `TypeError` inside Flask, which
surfaces as its 500 HTML error page. -/
def make_response : ViewReturn → HttpResponse
  | .jsonResponse status body => .json status body
  | .pyValue j =>
    match j with
    | .obj m => .json 200 (Json.obj m)
    | .arr l => .json 200 (Json.arr l)
    | .str s => .text 200 s
    | _ => .serverError

/-- Whether the client received a JSON response. -/
def HttpResponse.isJson : HttpResponse → Bool
  | .json _ _ => true
  | _ => false

/-- The handler's `try` block (lines 67-76): perform the exchange, raise for
bad statuses, decode the body; `return response.json()` hands the decoded
value back bare — its conversion into an HTTP response is Flask's
(`make_response`), not the handler's. -/
def requestTry (upstream : UpstreamOutcome) : Except PyExc ViewReturn :=
  match upstream with
  | .transportError desc => .error (.requestException desc)
  | .response status body =>
    match raise_for_status status body with
    | .error e => .error e
    | .ok _ =>
      match response_json body with
      | .ok j => .ok (.pyValue j)
      | .error e => .error e

/-- The handler's `except` clauses (lines 78-91): `HTTPError` first — forward
the upstream status with the body re-parsed as JSON, or the fixed fallback
object when `response.json()` raises `ValueError`; then any other
`RequestException` — a 503 with the interpolated message.  Both return
`(jsonify(...), status)`.  An exception matching neither clause would
propagate (`.error`). -/
def handleExcept : PyExc → Except PyExc ViewReturn
  | .httpError status body =>
    let error_details :=
      match json_loads body with
      | .ok j => j
      | .error _ =>
        Json.obj [("error", Json.str "Received a non-JSON error response from Pexels API."),
                  ("details", Json.str body)]
    .ok (.jsonResponse status error_details)
  | e =>
    if isRequestException e then
      .ok (.jsonResponse 503 (Json.obj [("error",
        Json.str ("Could not connect to Pexels API: " ++ pyExcMessage e))]))
    else .error e

/-- What one invocation of the handler produced: the view function's return
value (`.error` would mean an exception escaped the view uncaught) and the
outbound calls it made. -/
structure HandlerRun where
  result : Except PyExc ViewReturn
  calls : List OutboundRequest
deriving Repr

/-- The body of the validation failure (line 54). -/
def queryRequiredBody : Json :=
  Json.obj [("error", Json.str "The 'query' parameter is required.")]

/-- Lines 56-91 of the handler, once `query` has been validated: resolve
`per_page`, issue the one outbound call with the credential as the
`Authorization` header and a 10-second timeout, and translate the outcome. -/
def searchCall (PEXELS_API_KEY query : String) (per_page : Int)
    (upstream : UpstreamOutcome) : HandlerRun :=
  { result :=
      match requestTry upstream with
      | .ok r => .ok r
      | .error e => handleExcept e
    calls := [{ url := PEXELS_API_URL, authorization := PEXELS_API_KEY,
                query := query, per_page := per_page, timeout := 10 }] }

/-- The `/api/search` view function (lines 35-91).  `args` is the request's
query-string multidict; `upstream` the oracle for the (at most one) outbound
exchange.  `if not query` is falsy for both an absent parameter (`None`) and
the empty string. -/
def search_pexels_images (PEXELS_API_KEY : String) (args : List (String × String))
    (upstream : UpstreamOutcome) : HandlerRun :=
  match args_get args "query" with
  | none => { result := .ok (.jsonResponse 400 queryRequiredBody), calls := [] }
  | some query =>
    if query = "" then { result := .ok (.jsonResponse 400 queryRequiredBody), calls := [] }
    else searchCall PEXELS_API_KEY query (args_get_int args "per_page" 15) upstream

/-- The response the client receives: Flask's conversion of the view's
return value; an exception escaping the view uncaught would likewise surface
as Flask's 500 page. -/
def client_response (run : HandlerRun) : HttpResponse :=
  match run.result with
  | .ok v => make_response v
  | .error _ => .serverError

/-! ## Helper lemmas -/

/-- With a present, non-empty `query`, the handler reaches the outbound-call
section with the resolved `per_page`. -/
theorem search_valid_query (key q : String) (args : List (String × String))
    (upstream : UpstreamOutcome)
    (hq : args_get args "query" = some q) (hq' : q ≠ "") :
    search_pexels_images key args upstream
      = searchCall key q (args_get_int args "per_page" 15) upstream := by
  unfold search_pexels_images
  rw [hq]
  simp [hq']

/-- With a missing or empty `query`, the handler returns the fixed 400
response and makes no outbound call. -/
theorem search_invalid_query (key : String) (args : List (String × String))
    (upstream : UpstreamOutcome)
    (h : args_get args "query" = none ∨ args_get args "query" = some "") :
    search_pexels_images key args upstream
      = { result := Except.ok (.jsonResponse 400 queryRequiredBody), calls := [] } := by
  unfold search_pexels_images
  rcases h with h | h
  · rw [h]
  · rw [h]; simp

/-- Whatever the upstream outcome, the post-validation part of the handler
produces a view-return value (every exception is caught). -/
theorem searchCall_ok (key q : String) (pp : Int) (upstream : UpstreamOutcome) :
    ∃ v : ViewReturn, (searchCall key q pp upstream).result = Except.ok v := by
  cases upstream with
  | transportError d => exact ⟨_, rfl⟩
  | response status body =>
    by_cases hs : 400 ≤ status ∧ status < 600
    · cases hj : json_loads body with
      | ok j =>
        exact ⟨.jsonResponse status j, by
          simp [searchCall, requestTry, raise_for_status, if_pos hs, handleExcept, hj]⟩
      | error e =>
        exact ⟨.jsonResponse status (Json.obj
            [("error", Json.str "Received a non-JSON error response from Pexels API."),
             ("details", Json.str body)]), by
          simp [searchCall, requestTry, raise_for_status, if_pos hs, handleExcept, hj]⟩
    · cases hj : json_loads body with
      | ok j =>
        exact ⟨.pyValue j, by
          simp [searchCall, requestTry, raise_for_status, if_neg hs, response_json, hj]⟩
      | error e =>
        exact ⟨.jsonResponse 503 (Json.obj
            [("error", Json.str ("Could not connect to Pexels API: " ++ e))]), by
          simp [searchCall, requestTry, raise_for_status, if_neg hs, response_json, hj,
            handleExcept, isRequestException, pyExcMessage]⟩

/-- The client response determined by the view's return value. -/
theorem client_response_ok (run : HandlerRun) (v : ViewReturn)
    (h : run.result = Except.ok v) :
    client_response run = make_response v := by
  unfold client_response
  rw [h]

/-- A bare `dict` or `list` return is converted to a 200 JSON response. -/
theorem make_response_pyValue_json (j : Json) (hd : is_dict_or_list j = true) :
    make_response (ViewReturn.pyValue j) = HttpResponse.json 200 j := by
  cases j with
  | null => simp [is_dict_or_list] at hd
  | bool b => simp [is_dict_or_list] at hd
  | num l => simp [is_dict_or_list] at hd
  | str s => simp [is_dict_or_list] at hd
  | arr l => rfl
  | obj m => rfl

/-- When the client response after validation is not JSON, the view's return
was a bare non-`dict`/`list` value from the success branch: every `except`
path and the HTTPError path produce `jsonify` responses. -/
theorem searchCall_nonjson (key q : String) (pp : Int) (upstream : UpstreamOutcome)
    (hnj : (client_response (searchCall key q pp upstream)).isJson = false) :
    ∃ j, (searchCall key q pp upstream).result = Except.ok (ViewReturn.pyValue j)
      ∧ is_dict_or_list j = false := by
  cases upstream with
  | transportError d =>
    simp [client_response, searchCall, requestTry, handleExcept, isRequestException,
      make_response, HttpResponse.isJson] at hnj
  | response status body =>
    by_cases hs : 400 ≤ status ∧ status < 600
    · simp [client_response, searchCall, requestTry, raise_for_status, if_pos hs,
        handleExcept, make_response, HttpResponse.isJson] at hnj
    · cases hj : json_loads body with
      | error e =>
        simp [client_response, searchCall, requestTry, raise_for_status, if_neg hs,
          response_json, hj, handleExcept, isRequestException, make_response,
          HttpResponse.isJson] at hnj
      | ok j =>
        have hres : (searchCall key q pp (.response status body)).result
            = Except.ok (ViewReturn.pyValue j) := by
          simp [searchCall, requestTry, raise_for_status, if_neg hs, response_json, hj]
        refine ⟨j, hres, ?_⟩
        cases j with
        | null => rfl
        | bool b => rfl
        | num l => rfl
        | str s => rfl
        | arr l =>
          rw [client_response_ok _ _ hres] at hnj
          simp [make_response, HttpResponse.isJson] at hnj
        | obj m =>
          rw [client_response_ok _ _ hres] at hnj
          simp [make_response, HttpResponse.isJson] at hnj

/-! ## Claims -/

/-- C1 (counterexample): upstream completes with 2xx status 201 and the JSON
body, yet the client does not get that body with the same status code 201 —
the bare `return response.json()` always yields a 200. -/
theorem C1_counterexample :
    client_response (search_pexels_images "k" [("query", "nature")]
        (.response 201 "\x7b\"photos\":[]\x7d"))
      ≠ HttpResponse.json 201 (Json.obj [("photos", Json.arr [])]) := by
  intro h
  have hres : client_response (search_pexels_images "k" [("query", "nature")]
      (.response 201 "\x7b\"photos\":[]\x7d"))
      = HttpResponse.json 200 (Json.obj [("photos", Json.arr [])]) := rfl
  rw [hres] at h
  simp at h

/-- C1 (amended): for every request with a valid query where the upstream
call completes with a 2xx status and a body decoding to a JSON object or
array (a `dict` or `list`, which Flask serializes), the client receives that
decoded body with status 200, regardless of which 2xx code upstream used; in
particular, upstream 200 with the empty-photos object comes back as a 200
with that exact body.  (A body decoding to a scalar instead triggers Flask's
`TypeError` 500 page, and a top-level string is served as raw text.) -/
theorem C1_success_returns_body_with_200 (key q : String)
    (args : List (String × String)) (status : Nat) (body : String) (j : Json)
    (hq : args_get args "query" = some q) (hq' : q ≠ "")
    (h2 : 200 ≤ status) (h3 : status < 300)
    (hj : json_loads body = .ok j) (hd : is_dict_or_list j = true) :
    client_response (search_pexels_images key args (.response status body))
      = HttpResponse.json 200 j := by
  rw [search_valid_query key q args _ hq hq']
  have hs : ¬ (400 ≤ status ∧ status < 600) := by omega
  have hres : (searchCall key q (args_get_int args "per_page" 15)
      (.response status body)).result = Except.ok (ViewReturn.pyValue j) := by
    simp [searchCall, requestTry, raise_for_status, if_neg hs, response_json, hj]
  exact (client_response_ok _ _ hres).trans (make_response_pyValue_json j hd)

/-- C1 (witness): the concrete instance from the spec, at status 200. -/
theorem C1_success_returns_body_with_200_witness :
    client_response (search_pexels_images "k" [("query", "nature")]
        (.response 200 "\x7b\"photos\":[]\x7d"))
      = HttpResponse.json 200 (Json.obj [("photos", Json.arr [])]) :=
  C1_success_returns_body_with_200 "k" "nature" [("query", "nature")] 200
    "\x7b\"photos\":[]\x7d" (Json.obj [("photos", Json.arr [])])
    rfl (by decide) (by decide) (by decide) rfl rfl

/-- C2: for every request with missing or empty `query`, the view returns
the fixed 400 pair, the client receives exactly that JSON body with status
400, and no outbound call occurs. -/
theorem C2_missing_query_400_no_call (key : String) (args : List (String × String))
    (upstream : UpstreamOutcome)
    (h : args_get args "query" = none ∨ args_get args "query" = some "") :
    (search_pexels_images key args upstream).result
        = Except.ok (ViewReturn.jsonResponse 400
            (Json.obj [("error", Json.str "The 'query' parameter is required.")]))
      ∧ client_response (search_pexels_images key args upstream)
        = HttpResponse.json 400
            (Json.obj [("error", Json.str "The 'query' parameter is required.")])
      ∧ (search_pexels_images key args upstream).calls = [] := by
  rw [search_invalid_query key args upstream h]
  exact ⟨rfl, rfl, rfl⟩

/-- C2 (witness): a request with no parameters at all. -/
theorem C2_missing_query_400_no_call_witness :
    (search_pexels_images "k" [] (.transportError "x")).result
        = Except.ok (ViewReturn.jsonResponse 400
            (Json.obj [("error", Json.str "The 'query' parameter is required.")]))
      ∧ client_response (search_pexels_images "k" [] (.transportError "x"))
        = HttpResponse.json 400
            (Json.obj [("error", Json.str "The 'query' parameter is required.")])
      ∧ (search_pexels_images "k" [] (.transportError "x")).calls = [] :=
  C2_missing_query_400_no_call "k" [] (.transportError "x") (Or.inl rfl)

/-- C3: for every request with a valid query where upstream completes with a
4xx/5xx status, the client receives the upstream status with the body
decoded as JSON when it decodes, and otherwise with the fixed fallback object
carrying the raw body text as `details` (`jsonify` serializes either). -/
theorem C3_http_error_forwarded (key q : String) (args : List (String × String))
    (status : Nat) (body : String)
    (hq : args_get args "query" = some q) (hq' : q ≠ "")
    (h4 : 400 ≤ status) (h6 : status < 600) :
    (∀ j, json_loads body = .ok j →
      (search_pexels_images key args (.response status body)).result
          = Except.ok (ViewReturn.jsonResponse status j)
        ∧ client_response (search_pexels_images key args (.response status body))
          = HttpResponse.json status j)
    ∧ (∀ e, json_loads body = .error e →
      (search_pexels_images key args (.response status body)).result
          = Except.ok (ViewReturn.jsonResponse status (Json.obj
              [("error", Json.str "Received a non-JSON error response from Pexels API."),
               ("details", Json.str body)]))
        ∧ client_response (search_pexels_images key args (.response status body))
          = HttpResponse.json status (Json.obj
              [("error", Json.str "Received a non-JSON error response from Pexels API."),
               ("details", Json.str body)])) := by
  rw [search_valid_query key q args _ hq hq']
  have hs : 400 ≤ status ∧ status < 600 := ⟨h4, h6⟩
  constructor
  · intro j hj
    have hres : (searchCall key q (args_get_int args "per_page" 15)
        (.response status body)).result = Except.ok (ViewReturn.jsonResponse status j) := by
      simp [searchCall, requestTry, raise_for_status, if_pos hs, handleExcept, hj]
    exact ⟨hres, (client_response_ok _ _ hres).trans rfl⟩
  · intro e hj
    have hres : (searchCall key q (args_get_int args "per_page" 15)
        (.response status body)).result = Except.ok (ViewReturn.jsonResponse status
          (Json.obj
            [("error", Json.str "Received a non-JSON error response from Pexels API."),
             ("details", Json.str body)])) := by
      simp [searchCall, requestTry, raise_for_status, if_pos hs, handleExcept, hj]
    exact ⟨hres, (client_response_ok _ _ hres).trans rfl⟩

/-- C3 (witness): the spec's concrete instance, upstream 500 with the
non-JSON body text oops. -/
theorem C3_http_error_forwarded_witness :
    (search_pexels_images "k" [("query", "cat")] (.response 500 "oops")).result
        = Except.ok (ViewReturn.jsonResponse 500 (Json.obj
            [("error", Json.str "Received a non-JSON error response from Pexels API."),
             ("details", Json.str "oops")]))
      ∧ client_response (search_pexels_images "k" [("query", "cat")] (.response 500 "oops"))
        = HttpResponse.json 500 (Json.obj
            [("error", Json.str "Received a non-JSON error response from Pexels API."),
             ("details", Json.str "oops")]) :=
  (C3_http_error_forwarded "k" "cat" [("query", "cat")] 500 "oops"
    rfl (by decide) (by decide) (by decide)).2 "Expecting value" rfl

/-- C4: for every request with a valid query whose outbound exchange fails
with a transport error, the client receives a 503 with the error body built
from the failure description. -/
theorem C4_transport_error_503 (key q desc : String) (args : List (String × String))
    (hq : args_get args "query" = some q) (hq' : q ≠ "") :
    (search_pexels_images key args (.transportError desc)).result
        = Except.ok (ViewReturn.jsonResponse 503 (Json.obj
            [("error", Json.str ("Could not connect to Pexels API: " ++ desc))]))
      ∧ client_response (search_pexels_images key args (.transportError desc))
        = HttpResponse.json 503 (Json.obj
            [("error", Json.str ("Could not connect to Pexels API: " ++ desc))]) := by
  rw [search_valid_query key q args _ hq hq']
  exact ⟨rfl, rfl⟩

/-- C4 (witness): a concrete timeout description. -/
theorem C4_transport_error_503_witness :
    (search_pexels_images "k" [("query", "dog")]
        (.transportError "HTTPSConnectionPool: Read timed out.")).result
        = Except.ok (ViewReturn.jsonResponse 503 (Json.obj
            [("error", Json.str ("Could not connect to Pexels API: "
                ++ "HTTPSConnectionPool: Read timed out."))]))
      ∧ client_response (search_pexels_images "k" [("query", "dog")]
          (.transportError "HTTPSConnectionPool: Read timed out."))
        = HttpResponse.json 503 (Json.obj
            [("error", Json.str ("Could not connect to Pexels API: "
                ++ "HTTPSConnectionPool: Read timed out."))]) :=
  C4_transport_error_503 "k" "dog" "HTTPSConnectionPool: Read timed out."
    [("query", "dog")] rfl (by decide)

/-- C5: for every request with a valid query, the `per_page` carried by the
outbound call is the parsed integer when the parameter is present and
Python's `int` accepts it (no bound enforced, zero and negatives included),
and 15 when the parameter is absent or unparseable. -/
theorem C5_per_page_resolution (key q : String) (args : List (String × String))
    (upstream : UpstreamOutcome)
    (hq : args_get args "query" = some q) (hq' : q ≠ "") :
    (∀ s n, args_get args "per_page" = some s → python_int s = some n →
      (search_pexels_images key args upstream).calls.map OutboundRequest.per_page = [n])
    ∧ (args_get args "per_page" = none →
      (search_pexels_images key args upstream).calls.map OutboundRequest.per_page = [15])
    ∧ (∀ s, args_get args "per_page" = some s → python_int s = none →
      (search_pexels_images key args upstream).calls.map OutboundRequest.per_page = [15]) := by
  rw [search_valid_query key q args _ hq hq']
  refine ⟨?_, ?_, ?_⟩
  · intro s n hs hn
    simp [searchCall, args_get_int, hs, hn]
  · intro hs
    simp [searchCall, args_get_int, hs]
  · intro s hs hn
    simp [searchCall, args_get_int, hs, hn]

/-- C5 (witness): a negative `per_page` is passed through as parsed. -/
theorem C5_per_page_resolution_witness :
    (search_pexels_images "k" [("query", "cat"), ("per_page", "-3")]
        (.transportError "x")).calls.map OutboundRequest.per_page = [(-3 : Int)] :=
  (C5_per_page_resolution "k" "cat" [("query", "cat"), ("per_page", "-3")]
    (.transportError "x") rfl (by decide)).1 "-3" (-3) rfl rfl

/-- C6: with `PEXELS_API_KEY` absent from the environment or bound to the
empty string, module import fails with the fatal configuration error, so the
app is never created and listening never begins. -/
theorem C6_missing_key_fails_startup (env : List (String × String))
    (h : os_getenv env "PEXELS_API_KEY" = none
       ∨ os_getenv env "PEXELS_API_KEY" = some "") :
    module_init env = Except.error
      "A PEXELS_API_KEY environment variable is required to run this application." := by
  rcases h with h | h
  · simp [module_init, h]
  · simp [module_init, h]

/-- C6 (witness): the empty environment. -/
theorem C6_missing_key_fails_startup_witness :
    module_init [] = Except.error
      "A PEXELS_API_KEY environment variable is required to run this application." :=
  C6_missing_key_fails_startup [] (Or.inl rfl)

/-- C7 (counterexample): upstream completes with a 2xx and the body text 42,
which decodes to a JSON scalar; the view returns the bare `int`, Flask's
return conversion raises `TypeError`, and the client gets the 500 HTML error
page — not a JSON response with some status. -/
theorem C7_counterexample :
    ¬ ∃ (s : Nat) (j : Json),
      client_response (search_pexels_images "k" [("query", "q")] (.response 200 "42"))
        = HttpResponse.json s j := by
  intro h
  obtain ⟨s, j, h⟩ := h
  have hres : client_response (search_pexels_images "k" [("query", "q")] (.response 200 "42"))
      = HttpResponse.serverError := rfl
  rw [hres] at h
  exact HttpResponse.noConfusion h

/-- C7 (amended): for every request and every upstream outcome, no exception
escapes the view function uncaught — it always returns a value; and whenever
the client's response is not JSON, the view's return was a bare
non-`dict`/`list` value from the success branch, so every failure path
(validation, upstream 4xx/5xx, transport error, undecodable body) is a JSON
response; only a 2xx/3xx body decoding to a JSON scalar or string escapes to
Flask's 500 HTML page or a raw-text 200. -/
theorem C7_no_uncaught_exception (key : String) (args : List (String × String))
    (upstream : UpstreamOutcome) :
    (∃ v : ViewReturn, (search_pexels_images key args upstream).result = Except.ok v)
    ∧ ((client_response (search_pexels_images key args upstream)).isJson = false →
      ∃ j, (search_pexels_images key args upstream).result
          = Except.ok (ViewReturn.pyValue j) ∧ is_dict_or_list j = false) := by
  constructor
  · cases h : args_get args "query" with
    | none =>
      rw [search_invalid_query key args upstream (Or.inl h)]
      exact ⟨_, rfl⟩
    | some q =>
      by_cases hq : q = ""
      · subst hq
        rw [search_invalid_query key args upstream (Or.inr h)]
        exact ⟨_, rfl⟩
      · rw [search_valid_query key q args upstream h hq]
        exact searchCall_ok key q _ upstream
  · intro hnj
    cases h : args_get args "query" with
    | none =>
      rw [search_invalid_query key args upstream (Or.inl h)] at hnj
      simp [client_response, make_response, HttpResponse.isJson] at hnj
    | some q =>
      by_cases hq : q = ""
      · subst hq
        rw [search_invalid_query key args upstream (Or.inr h)] at hnj
        simp [client_response, make_response, HttpResponse.isJson] at hnj
      · rw [search_valid_query key q args upstream h hq] at hnj ⊢
        exact searchCall_nonjson key q _ upstream hnj

/-- C7 (witness): at the counterexample's input — 2xx with scalar body 42 —
the view still returned without an uncaught exception, and the non-JSON
client response indeed came from the bare scalar return. -/
theorem C7_no_uncaught_exception_witness :
    (∃ v : ViewReturn, (search_pexels_images "k" [("query", "q")]
        (.response 200 "42")).result = Except.ok v)
    ∧ ∃ j, (search_pexels_images "k" [("query", "q")] (.response 200 "42")).result
        = Except.ok (ViewReturn.pyValue j) ∧ is_dict_or_list j = false :=
  ⟨(C7_no_uncaught_exception "k" [("query", "q")] (.response 200 "42")).1,
   (C7_no_uncaught_exception "k" [("query", "q")] (.response 200 "42")).2 rfl⟩

/-- C8: runs that differ only in the credential produce identical responses;
the credential reaches only the outbound call's `Authorization` header, all
other outbound fields being credential-independent. -/
theorem C8_credential_noninterference (k1 k2 : String) (args : List (String × String))
    (upstream : UpstreamOutcome) :
    (search_pexels_images k1 args upstream).result
        = (search_pexels_images k2 args upstream).result
    ∧ (search_pexels_images k1 args upstream).calls.map OutboundRequest.authorization
        = (search_pexels_images k1 args upstream).calls.map (fun _ => k1)
    ∧ (search_pexels_images k1 args upstream).calls.map
          (fun c => (c.url, c.query, c.per_page, c.timeout))
        = (search_pexels_images k2 args upstream).calls.map
          (fun c => (c.url, c.query, c.per_page, c.timeout)) := by
  cases h : args_get args "query" with
  | none =>
    rw [search_invalid_query k1 args upstream (Or.inl h),
      search_invalid_query k2 args upstream (Or.inl h)]
    exact ⟨rfl, rfl, rfl⟩
  | some q =>
    by_cases hq : q = ""
    · subst hq
      rw [search_invalid_query k1 args upstream (Or.inr h),
        search_invalid_query k2 args upstream (Or.inr h)]
      exact ⟨rfl, rfl, rfl⟩
    · rw [search_valid_query k1 q args upstream h hq,
        search_valid_query k2 q args upstream h hq]
      exact ⟨rfl, rfl, rfl⟩

/-- C9: for every request with a valid query, the handler makes exactly one
outbound GET, to the upstream endpoint, carrying the stored credential as the
`Authorization` value, the validated query and the resolved `per_page`, and
the fixed 10-second timeout. -/
theorem C9_single_outbound_call (key q : String) (args : List (String × String))
    (upstream : UpstreamOutcome)
    (hq : args_get args "query" = some q) (hq' : q ≠ "") :
    (search_pexels_images key args upstream).calls
      = [{ url := PEXELS_API_URL, authorization := key, query := q,
           per_page := args_get_int args "per_page" 15, timeout := 10 }] := by
  rw [search_valid_query key q args upstream hq hq']
  rfl

/-- C9 (witness): concrete request with an explicit `per_page` of 5. -/
theorem C9_single_outbound_call_witness :
    (search_pexels_images "secret" [("query", "sun"), ("per_page", "5")]
        (.response 200 "[]")).calls
      = [{ url := PEXELS_API_URL, authorization := "secret", query := "sun",
           per_page := 5, timeout := 10 }] :=
  C9_single_outbound_call "secret" "sun" [("query", "sun"), ("per_page", "5")]
    (.response 200 "[]") rfl (by decide)

/-- C10 (counterexample): upstream delivers a 302 whose body text true
decodes as JSON; the claim would have the client receive that value with
status 200, but the bare `bool` return makes Flask raise `TypeError` and
serve its 500 HTML page instead. -/
theorem C10_counterexample :
    client_response (search_pexels_images "k" [("query", "q2")] (.response 302 "true"))
      ≠ HttpResponse.json 200 (Json.bool true) := by
  intro h
  have hres : client_response (search_pexels_images "k" [("query", "q2")]
      (.response 302 "true")) = HttpResponse.serverError := rfl
  rw [hres] at h
  exact HttpResponse.noConfusion h

/-- C10 (amended): for every request with a valid query where upstream
completes with a 3xx status, `raise_for_status` does not raise (it raises
only for 400-599), so the success branch runs: whenever the body decodes as
JSON the view returns the decoded value bare, and when that value is a
`dict` or `list` the client receives it with status 200 rather than the 3xx
status being forwarded (a scalar instead hits Flask's `TypeError` 500
page). -/
theorem C10_redirect_status_success_branch (key q : String)
    (args : List (String × String)) (status : Nat) (body : String)
    (hq : args_get args "query" = some q) (hq' : q ≠ "")
    (h3 : 300 ≤ status) (h4 : status < 400) :
    raise_for_status status body = Except.ok ()
    ∧ (∀ j, json_loads body = .ok j →
      (search_pexels_images key args (.response status body)).result
        = Except.ok (ViewReturn.pyValue j))
    ∧ (∀ j, json_loads body = .ok j → is_dict_or_list j = true →
      client_response (search_pexels_images key args (.response status body))
        = HttpResponse.json 200 j) := by
  have hs : ¬ (400 ≤ status ∧ status < 600) := by omega
  refine ⟨by simp [raise_for_status, if_neg hs], ?_, ?_⟩
  · intro j hj
    rw [search_valid_query key q args _ hq hq']
    simp [searchCall, requestTry, raise_for_status, if_neg hs, response_json, hj]
  · intro j hj hd
    rw [search_valid_query key q args _ hq hq']
    have hres : (searchCall key q (args_get_int args "per_page" 15)
        (.response status body)).result = Except.ok (ViewReturn.pyValue j) := by
      simp [searchCall, requestTry, raise_for_status, if_neg hs, response_json, hj]
    exact (client_response_ok _ _ hres).trans (make_response_pyValue_json j hd)

/-- C10 (witness): a 304 whose body is the empty JSON object comes back as a
200 with that object, with no HTTPError raised. -/
theorem C10_redirect_status_success_branch_witness :
    raise_for_status 304 "\x7b\x7d" = Except.ok ()
    ∧ (search_pexels_images "k" [("query", "sea")]
        (.response 304 "\x7b\x7d")).result
        = Except.ok (ViewReturn.pyValue (Json.obj []))
    ∧ client_response (search_pexels_images "k" [("query", "sea")]
        (.response 304 "\x7b\x7d")) = HttpResponse.json 200 (Json.obj []) := by
  have h := C10_redirect_status_success_branch "k" "sea" [("query", "sea")] 304
    "\x7b\x7d" rfl (by decide) (by decide) (by decide)
  exact ⟨h.1, h.2.1 (Json.obj []) rfl, h.2.2 (Json.obj []) rfl rfl⟩
